import Mathlib

/-
Shallow embedding of the storage-abstraction layer of the
dashboard-margdarshak repository.

Two variants of the S3 gateway exist in the repository:
the richer one (namespace Gateway below) with validation, metadata
embedding, key sanitization and delete guards, and the plain one in
src/lib/s3.ts (namespace LibS3 below) without any of the guards.

The object-store backend and the pdf-lib document library are
collaborators; they are modelled as oracle parameters (the outcome the
backend would produce) and the calls issued to the backend are recorded
in an explicit event trace, in chronological order.
-/

namespace DMS

/-- JS String.prototype.startsWith, modelled on the character list of a
string (every character appearing here is in the basic plane, so one
Lean Char corresponds to one UTF-16 code unit). -/
def charsStartWith : List Char → List Char → Bool
  | [], _ => true
  | _ :: _, [] => false
  | a :: as, b :: bs => a == b && charsStartWith as bs

/-- JS fileKey.startsWith(p), as used by the delete guard. -/
def strStartsWith (s p : String) : Bool :=
  charsStartWith p.data s.data

/-- Characters kept unchanged by the sanitizing regex [^a-zA-Z0-9._-]. -/
def isAllowedChar (c : Char) : Bool :=
  (97 ≤ c.toNat && c.toNat ≤ 122) ||
  (65 ≤ c.toNat && c.toNat ≤ 90) ||
  (48 ≤ c.toNat && c.toNat ≤ 57) ||
  c == '.' || c == '_' || c == '-'

/-- One step of name.replace(/[^a-zA-Z0-9._-]/g, "_"): a single character
is kept when allowed and replaced by an underscore otherwise. -/
def sanChar (c : Char) : Char :=
  if isAllowedChar c then c else '_'

/-- name.replace(/[^a-zA-Z0-9._-]/g, "_"): every character outside the
allowed set is replaced 1:1 with an underscore. -/
def sanitizeFileName (s : String) : String :=
  ⟨s.data.map sanChar⟩

/-- item.Key.split("/").pop() followed by the JS falsy default "". -/
def lastSegment (s : String) : String :=
  ((s.splitOn "/").getLast?).getD ""

/-- A JavaScript Error value as thrown by the gateway: a name (always
"Error" for plain new Error(...)) and a human-readable message. These
are the only fields a caller can inspect. -/
structure JSError where
  name : String
  message : String
  deriving DecidableEq

instance {ε α : Type} [DecidableEq ε] [DecidableEq α] : DecidableEq (Except ε α) := fun x y =>
  match x, y with
  | .ok a, .ok b => if h : a = b then .isTrue (by rw [h]) else .isFalse (by simp [h])
  | .error a, .error b => if h : a = b then .isTrue (by rw [h]) else .isFalse (by simp [h])
  | .ok _, .error _ => .isFalse (by simp)
  | .error _, .ok _ => .isFalse (by simp)

/-- The failure taxonomy of the spec, tagged by throw site. The tag
records which guard fired; the message is the exact string the code
puts into the thrown Error. -/
inductive StoreFailure
  | validationError (message : String)
  | metadataWriteError (message : String)
  | invalidKeyError (message : String)
  | storeError (code : String) (message : String)
  deriving DecidableEq

/-- The message carried by a failure. -/
def StoreFailure.message : StoreFailure → String
  | .validationError m => m
  | .metadataWriteError m => m
  | .invalidKeyError m => m
  | .storeError _ m => m

/-- Rewrap a failure with a new message, keeping its taxonomy member;
this is what the outer catch blocks of the upload functions do when they
re-throw a caught Error with a prefixed message. -/
def StoreFailure.mapMessage (g : String → String) : StoreFailure → StoreFailure
  | .validationError m => .validationError (g m)
  | .metadataWriteError m => .metadataWriteError (g m)
  | .invalidKeyError m => .invalidKeyError (g m)
  | .storeError c m => .storeError c (g m)

/-- What the JS code actually throws for a failure: a plain Error whose
name field is the constant "Error" and whose only content is the
message string. -/
def render (f : StoreFailure) : JSError :=
  ⟨"Error", f.message⟩

/-- The four taxonomy members, without any message payload. -/
inductive ErrorClass
  | validation
  | metadataWrite
  | keyGuard
  | store
  deriving DecidableEq

/-- The taxonomy member of a tagged failure. -/
def classOf : StoreFailure → ErrorClass
  | .validationError _ => .validation
  | .metadataWriteError _ => .metadataWrite
  | .invalidKeyError _ => .keyGuard
  | .storeError _ _ => .store

/-- Recover the taxonomy member from the thrown message alone, using
the fixed message prefixes the code writes at each throw site. -/
def classifyMessage (m : String) : ErrorClass :=
  if m.data.head? = some 'S' then .store
  else if charsStartWith ("Failed to upload PDF: Failed to modify PDF metadata: ").data m.data then
    .metadataWrite
  else if m = "Failed to upload PDF: File too large. Maximum size is 100MB." ∨
          m = "Failed to upload Excel: File too large. Maximum size is 100MB." ∨
          m = "Failed to upload Excel: Invalid Excel file format. Please upload a valid Excel file." then
    .validation
  else .keyGuard

/-- A call issued to a collaborator, recorded in chronological order:
the pdf-lib metadata rewrite, and the three S3 backend capabilities the
claims are about. -/
inductive GatewayEvent
  | embedCall
  | s3Put (bucket : String) (key : String)
  | s3List (bucket : String) (keyStart : String) (maxKeys : Nat)
  | s3Delete (bucket : String) (key : String)
  deriving DecidableEq

/-- Whether PDFDocument.load accepts the bytes of a file; on rejection
it carries the message of the error thrown by pdf-lib. -/
inductive PdfParseOutcome
  | parsed
  | parseError (message : String)
  deriving DecidableEq

/-- A browser File as the gateway sees it: name, size in bytes, declared
MIME type, and the pdf-lib parse outcome of its bytes. -/
structure File where
  name : String
  size : Nat
  mimeType : String
  parse : PdfParseOutcome
  deriving DecidableEq

/-- The metadata fields of a pdf-lib document after the set calls,
preserved verbatim through save and a later load (the round trip is the
document-format capability of the spec). -/
structure PdfDocument where
  title : Option String
  author : Option String
  subject : Option String
  producer : Option String
  creator : Option String
  keywords : List String
  deriving DecidableEq

/-- Outcome of the backend put capability (upload.done()). -/
inductive BackendPutResult
  | success
  | s3Exn (name : String) (message : String)
  deriving DecidableEq

/-- Outcome of the backend delete capability (s3Client.send of a
DeleteObjectCommand). -/
inductive BackendDeleteResult
  | success
  | s3Exn (name : String) (message : String)
  deriving DecidableEq

/-- One entry of a ListObjectsV2 response; every field is optional in
the AWS response type. lastModified is in epoch milliseconds. -/
structure S3Object where
  key : Option String
  size : Option Nat
  lastModified : Option Nat
  deriving DecidableEq

/-- Outcome of the backend list capability; Contents may be absent even
on success. -/
inductive BackendListResult
  | ok (contents : Option (List S3Object))
  | s3Exn (name : String) (message : String)
  deriving DecidableEq

/-- Whether a backend listing outcome is a service exception. -/
def BackendListResult.isS3Exn : BackendListResult → Bool
  | .ok _ => false
  | .s3Exn _ _ => true

/-- One row of the aggregated listing (the FileInfo interface). -/
structure FileInfo where
  id : String
  name : String
  kindTag : String
  uploadedAt : Nat
  size : Nat
  url : String
  deriving DecidableEq

/-- The HTTP command handed to the presigner. -/
inductive HttpCommand
  | putObject
  | getObject
  deriving DecidableEq

/-- Result of getPresignedUrl: either the presigner capability was
invoked on a command for the given bucket, key and expiry, or the
fallback public-style URL was returned directly. -/
inductive PresignOutcome
  | signed (cmd : HttpCommand) (bucket : String) (key : String) (expiresIn : Nat)
  | publicUrl (url : String)
  deriving DecidableEq

namespace Gateway

/-- MAX_FILE_SIZE_MB constant of the gateway module. -/
def MAX_FILE_SIZE_MB : Nat := 100

/-- validateFileSize: throws when file.size exceeds the limit in bytes,
returns true otherwise. The message is the interpolation of the template
in the source at MAX_FILE_SIZE_MB = 100. -/
def validateFileSize (file : File) : Except StoreFailure Bool :=
  if file.size > MAX_FILE_SIZE_MB * 1024 * 1024 then
    .error (.validationError "File too large. Maximum size is 100MB.")
  else
    .ok true

/-- addSourceLinkToPdf: loads the bytes with pdf-lib, sets the metadata
fields, and saves. On a pdf-lib error the catch block wraps the cause
message. nowIso is the ISO-8601 rendering of the current time produced
by new Date().toISOString(). -/
def addSourceLinkToPdf (pdfFile : File) (sourceLink : String) (nowIso : String) :
    Except StoreFailure PdfDocument :=
  match pdfFile.parse with
  | .parseError em =>
      .error (.metadataWriteError ("Failed to modify PDF metadata: " ++ em))
  | .parsed =>
      .ok { title := some ("Document: " ++ pdfFile.name)
            author := some "Document Management System"
            subject := some sourceLink
            producer := some "DMS Upload Tool"
            creator := some "DMS Upload Tool"
            keywords := ["source:" ++ sourceLink, "upload:" ++ nowIso] }

/-- The outer catch of uploadPdfToS3 for a non-S3 Error: re-throws with
the prefixed message, keeping the taxonomy member of the cause. -/
def wrapPdfFailure (f : StoreFailure) : StoreFailure :=
  f.mapMessage (fun m => "Failed to upload PDF: " ++ m)

/-- uploadPdfToS3: bucket-name guard, size validation, metadata embed,
key derivation, then the backend put. ts is Date.now() in milliseconds.
The local BUCKET_NAME constant is the literal written in the source. -/
def uploadPdfToS3 (pdfFile : File) (sourceLink : String) (ts : Nat) (nowIso : String)
    (put : BackendPutResult) : Except StoreFailure String × List GatewayEvent :=
  let bucketName := "major-project-margdarshak"
  if bucketName = "" then
    (.error (wrapPdfFailure (.validationError
       "S3 bucket name is not defined. Check your environment configuration.")), [])
  else
    match validateFileSize pdfFile with
    | .error f => (.error (wrapPdfFailure f), [])
    | .ok _ =>
      match addSourceLinkToPdf pdfFile sourceLink nowIso with
      | .error f => (.error (wrapPdfFailure f), [.embedCall])
      | .ok _doc =>
        let fileKey := "pdf_files/" ++ toString ts ++ "-" ++ sanitizeFileName pdfFile.name
        match put with
        | .success =>
            (.ok fileKey, [.embedCall, .s3Put bucketName fileKey])
        | .s3Exn n m =>
            (.error (.storeError n ("S3 upload failed: " ++ n ++ " - " ++ m)),
             [.embedCall, .s3Put bucketName fileKey])

/-- The fixed allow-list of spreadsheet MIME types. -/
def validExcelTypes : List String :=
  ["application/vnd.ms-excel",
   "application/vnd.openxmlformats-officedocument.spreadsheetml.sheet",
   "application/vnd.oasis.opendocument.spreadsheet"]

/-- The outer catch of uploadExcelToS3 for a non-S3 Error. -/
def wrapExcelFailure (f : StoreFailure) : StoreFailure :=
  f.mapMessage (fun m => "Failed to upload Excel: " ++ m)

/-- uploadExcelToS3: size validation, MIME allow-list check, key
derivation, then the backend put; no metadata embedding for Excel. -/
def uploadExcelToS3 (bucket : String) (excelFile : File) (ts : Nat)
    (put : BackendPutResult) : Except StoreFailure String × List GatewayEvent :=
  match validateFileSize excelFile with
  | .error f => (.error (wrapExcelFailure f), [])
  | .ok _ =>
    if !(validExcelTypes.contains excelFile.mimeType) then
      (.error (wrapExcelFailure (.validationError
         "Invalid Excel file format. Please upload a valid Excel file.")), [])
    else
      let fileKey := "excel_sheets/" ++ toString ts ++ "-" ++ sanitizeFileName excelFile.name
      match put with
      | .success => (.ok fileKey, [.s3Put bucket fileKey])
      | .s3Exn n m =>
          (.error (.storeError n ("S3 upload failed: " ++ n ++ " - " ++ m)),
           [.s3Put bucket fileKey])

/-- Map one accepted listing entry to a FileInfo row; now is the epoch
millisecond value new Date() would produce, used when LastModified is
absent, and 0 stands in for an absent Size. -/
def mkFileInfo (bucket : String) (now : Nat) (tag : String) (k : String)
    (obj : S3Object) : FileInfo :=
  { id := k
    name := lastSegment k
    kindTag := tag
    uploadedAt := obj.lastModified.getD now
    size := obj.size.getD 0
    url := "https://" ++ bucket ++ ".s3.amazonaws.com/" ++ k }

/-- The defensive filter of a listing: the entry must have a truthy Key
with the expected extension. Returns the key together with the entry. -/
def filterEntries (accept : String → Bool) (items : List S3Object) :
    List (String × S3Object) :=
  items.filterMap fun obj =>
    match obj.key with
    | some k => if (k != "") && accept k then some (k, obj) else none
    | none => none

/-- Extension check for the pdf_files listing. -/
def extensionOkPdf (k : String) : Bool := k.endsWith ".pdf"

/-- Extension check for the excel_sheets listing. -/
def extensionOkExcel (k : String) : Bool :=
  k.endsWith ".xlsx" || k.endsWith ".xls" || k.endsWith ".ods"

/-- listFilesFromS3: issues the two per-category listings (both commands
are sent, via Promise.all), and either fails as a whole when a listing
failed or returns the two filtered, mapped category lists concatenated,
PDFs first. When both listings fail Promise.all surfaces one of the two
rejections; the model surfaces the pdf one. -/
def listFilesFromS3 (bucket : String) (now : Nat)
    (pdfRes excelRes : BackendListResult) :
    Except StoreFailure (List FileInfo) × List GatewayEvent :=
  let events := [GatewayEvent.s3List bucket "pdf_files/" 1000,
                 GatewayEvent.s3List bucket "excel_sheets/" 1000]
  match pdfRes, excelRes with
  | .s3Exn n m, _ =>
      (.error (.storeError n ("S3 list operation failed: " ++ n ++ " - " ++ m)), events)
  | .ok _, .s3Exn n m =>
      (.error (.storeError n ("S3 list operation failed: " ++ n ++ " - " ++ m)), events)
  | .ok pdfContents, .ok excelContents =>
      let pdfFiles := (filterEntries extensionOkPdf (pdfContents.getD [])).map
        (fun e => mkFileInfo bucket now "pdf" e.1 e.2)
      let excelFiles := (filterEntries extensionOkExcel (excelContents.getD [])).map
        (fun e => mkFileInfo bucket now "excel" e.1 e.2)
      (.ok (pdfFiles ++ excelFiles), events)

/-- getPresignedUrl: when the presigner import succeeded, it presigns a
PutObjectCommand for the key with the given expiry; otherwise it falls
back to the public-style URL without failing. -/
def getPresignedUrl (bucket : String) (fileKey : String) (capAvailable : Bool)
    (expiresIn : Nat := 3600) : PresignOutcome :=
  if capAvailable then
    .signed .putObject bucket fileKey expiresIn
  else
    .publicUrl ("https://" ++ bucket ++ ".s3.amazonaws.com/" ++ fileKey)

/-- deleteFileFromS3 of the guarded gateway: empty keys and keys outside
the two recognized category folders are rejected before any backend
call; otherwise the delete command is sent exactly once. -/
def deleteFileFromS3 (bucket : String) (fileKey : String)
    (backend : BackendDeleteResult) :
    Except StoreFailure Unit × List GatewayEvent :=
  if fileKey = "" then
    (.error (.invalidKeyError "Failed to delete file: File key is required"), [])
  else if !(strStartsWith fileKey "pdf_files/") && !(strStartsWith fileKey "excel_sheets/") then
    (.error (.invalidKeyError "Failed to delete file: Invalid file key format"), [])
  else
    match backend with
    | .success => (.ok (), [.s3Delete bucket fileKey])
    | .s3Exn n m =>
        (.error (.storeError n ("S3 delete operation failed: " ++ n ++ " - " ++ m)),
         [.s3Delete bucket fileKey])

end Gateway

namespace LibS3

/-- deleteFileFromS3 of src/src/lib/s3.ts: no key validation of any
kind; the delete command is sent for every key, and any failure is
swallowed into one generic Error message. -/
def deleteFileFromS3 (bucket : String) (fileKey : String)
    (backend : BackendDeleteResult) : Except JSError Unit × List GatewayEvent :=
  match backend with
  | .success => (.ok (), [.s3Delete bucket fileKey])
  | .s3Exn _ _ =>
      (.error ⟨"Error", "Failed to delete file from S3"⟩, [.s3Delete bucket fileKey])

end LibS3

/-- Appending strings concatenates their character lists. -/
theorem data_append (p q : String) : (p ++ q).data = p.data ++ q.data := rfl

/-- A character list is a prefix of itself followed by anything. -/
theorem charsStartWith_append_self (p t : List Char) : charsStartWith p (p ++ t) = true := by
  induction p with
  | nil => rfl
  | cons a as ih => simp [charsStartWith, ih]

/-- The first character of a nonempty string survives appending. -/
theorem head_append (p q : String) (c : Char) (h : p.data.head? = some c) :
    (p ++ q).data.head? = some c := by
  rw [data_append]
  cases hd : p.data with
  | nil => rw [hd] at h; simp at h
  | cons a as =>
    rw [hd] at h
    simp only [List.head?_cons, Option.some.injEq] at h
    simp [h]

example : strStartsWith "pdf_files/123-a.pdf" "pdf_files/" = true := by decide
example : strStartsWith "evil/../../secret" "pdf_files/" = false := by decide

/-- C1: remove (deleteFileFromS3) fails with the InvalidKey guard and
issues no backend delete call whenever the key is empty or outside the
two recognized category folders; for a recognized key it issues the
backend delete exactly once and fails only when the backend fails,
wrapping the backend exception as a StoreError. -/
theorem C1_remove_guard (bucket fileKey : String) (backend : BackendDeleteResult) :
    (fileKey = "" ∨ (strStartsWith fileKey "pdf_files/" = false ∧
        strStartsWith fileKey "excel_sheets/" = false) →
      (∃ m, (Gateway.deleteFileFromS3 bucket fileKey backend).1 =
        .error (.invalidKeyError m)) ∧
      (Gateway.deleteFileFromS3 bucket fileKey backend).2 = []) ∧
    (fileKey ≠ "" →
      strStartsWith fileKey "pdf_files/" = true ∨ strStartsWith fileKey "excel_sheets/" = true →
      (Gateway.deleteFileFromS3 bucket fileKey backend).2 =
        [GatewayEvent.s3Delete bucket fileKey] ∧
      ((Gateway.deleteFileFromS3 bucket fileKey backend).1 = .ok () ↔
        backend = .success) ∧
      (∀ n m, backend = .s3Exn n m →
        (Gateway.deleteFileFromS3 bucket fileKey backend).1 =
          .error (.storeError n ("S3 delete operation failed: " ++ n ++ " - " ++ m)))) := by
  constructor
  · rintro (hk | ⟨h1, h2⟩)
    · simp [Gateway.deleteFileFromS3, hk]
    · by_cases hk : fileKey = ""
      · simp [Gateway.deleteFileFromS3, hk]
      · simp [Gateway.deleteFileFromS3, hk, h1, h2]
  · intro hk hstart
    rcases backend with _ | ⟨n, m⟩ <;>
      rcases hstart with h | h <;>
        simp [Gateway.deleteFileFromS3, hk, h]

/-- C2: for every file larger than maxSizeMB * 1048576 bytes (maxSizeMB
is fixed at 100), both upload operations fail with the SizeExceeded
validation error and produce no backend call and no metadata-rewrite
work: the event trace is empty. -/
theorem C2_size_guard (pdfFile excelFile : File) (link bucket nowIso : String)
    (ts : Nat) (put : BackendPutResult)
    (hp : pdfFile.size > 100 * 1048576) (he : excelFile.size > 100 * 1048576) :
    (Gateway.uploadPdfToS3 pdfFile link ts nowIso put).1 =
      .error (.validationError "Failed to upload PDF: File too large. Maximum size is 100MB.") ∧
    (Gateway.uploadPdfToS3 pdfFile link ts nowIso put).2 = [] ∧
    (Gateway.uploadExcelToS3 bucket excelFile ts put).1 =
      .error (.validationError "Failed to upload Excel: File too large. Maximum size is 100MB.") ∧
    (Gateway.uploadExcelToS3 bucket excelFile ts put).2 = [] := by
  have hvp : Gateway.validateFileSize pdfFile =
      .error (.validationError "File too large. Maximum size is 100MB.") := by
    rw [Gateway.validateFileSize, if_pos]
    simp [Gateway.MAX_FILE_SIZE_MB]; omega
  have hve : Gateway.validateFileSize excelFile =
      .error (.validationError "File too large. Maximum size is 100MB.") := by
    rw [Gateway.validateFileSize, if_pos]
    simp [Gateway.MAX_FILE_SIZE_MB]; omega
  refine ⟨?_, ?_, ?_, ?_⟩ <;>
    simp [Gateway.uploadPdfToS3, Gateway.uploadExcelToS3, hvp, hve,
      Gateway.wrapPdfFailure, Gateway.wrapExcelFailure, StoreFailure.mapMessage]

/-- validateFileSize succeeds on files within the size limit. -/
theorem validateFileSize_ok (file : File) (h : ¬ file.size > 100 * 1048576) :
    Gateway.validateFileSize file = .ok true := by
  rw [Gateway.validateFileSize, if_neg]
  simp [Gateway.MAX_FILE_SIZE_MB]; omega

/-- C3: when the metadata embedding step fails, uploadPdfToS3 aborts
with a MetadataWriteError wrapping the cause, and the backend put is
never called (the trace holds only the embed call); moreover in every
run of uploadPdfToS3, any put call is strictly preceded by the embed
call. -/
theorem C3_embed_before_put (pdfFile : File) (link nowIso : String) (ts : Nat)
    (put : BackendPutResult) (em : String)
    (hsize : ¬ pdfFile.size > 100 * 1048576)
    (hparse : pdfFile.parse = .parseError em) :
    (Gateway.uploadPdfToS3 pdfFile link ts nowIso put).1 =
      .error (.metadataWriteError
        ("Failed to upload PDF: " ++ ("Failed to modify PDF metadata: " ++ em))) ∧
    (Gateway.uploadPdfToS3 pdfFile link ts nowIso put).2 = [GatewayEvent.embedCall] ∧
    (∀ b k, GatewayEvent.s3Put b k ∉ (Gateway.uploadPdfToS3 pdfFile link ts nowIso put).2) ∧
    (∀ (f : File) (l : String) (t : Nat) (i : String) (p : BackendPutResult) (b k : String),
      GatewayEvent.s3Put b k ∈ (Gateway.uploadPdfToS3 f l t i p).2 →
      (Gateway.uploadPdfToS3 f l t i p).2 = [GatewayEvent.embedCall, GatewayEvent.s3Put b k]) := by
  have hv := validateFileSize_ok pdfFile hsize
  have hed : Gateway.addSourceLinkToPdf pdfFile link nowIso =
      .error (.metadataWriteError ("Failed to modify PDF metadata: " ++ em)) := by
    rw [Gateway.addSourceLinkToPdf, hparse]
  refine ⟨?_, ?_, ?_, ?_⟩
  · simp [Gateway.uploadPdfToS3, hv, hed, Gateway.wrapPdfFailure, StoreFailure.mapMessage]
  · simp [Gateway.uploadPdfToS3, hv, hed]
  · simp [Gateway.uploadPdfToS3, hv, hed]
  · intro f l t i p b k hmem
    by_cases hs : f.size > 100 * 1048576
    · have : Gateway.validateFileSize f =
          .error (.validationError "File too large. Maximum size is 100MB.") := by
        rw [Gateway.validateFileSize, if_pos]
        simp [Gateway.MAX_FILE_SIZE_MB]; omega
      simp [Gateway.uploadPdfToS3, this] at hmem
    · have hvf := validateFileSize_ok f hs
      cases hpf : f.parse with
      | parseError e =>
        have : Gateway.addSourceLinkToPdf f l i =
            .error (.metadataWriteError ("Failed to modify PDF metadata: " ++ e)) := by
          rw [Gateway.addSourceLinkToPdf, hpf]
        simp [Gateway.uploadPdfToS3, hvf, this] at hmem
      | parsed =>
        have hok : Gateway.addSourceLinkToPdf f l i =
            .ok { title := some ("Document: " ++ f.name)
                  author := some "Document Management System"
                  subject := some l
                  producer := some "DMS Upload Tool"
                  creator := some "DMS Upload Tool"
                  keywords := ["source:" ++ l, "upload:" ++ i] } := by
          rw [Gateway.addSourceLinkToPdf, hpf]
        cases p with
        | success =>
          simp only [Gateway.uploadPdfToS3, hvf, hok] at hmem ⊢
          simp at hmem
          simp [hmem]
        | s3Exn n m =>
          simp only [Gateway.uploadPdfToS3, hvf, hok] at hmem ⊢
          simp at hmem
          simp [hmem]

/-- C4: whenever either of the two per-category backend listings fails,
listFilesFromS3 fails as a whole with a single aggregate StoreError and
never returns a partial list. -/
theorem C4_aggregate_failure (bucket : String) (now : Nat)
    (pdfRes excelRes : BackendListResult)
    (h : pdfRes.isS3Exn = true ∨ excelRes.isS3Exn = true) :
    (∃ c m, (Gateway.listFilesFromS3 bucket now pdfRes excelRes).1 =
      .error (.storeError c m)) ∧
    (∀ l, (Gateway.listFilesFromS3 bucket now pdfRes excelRes).1 ≠ .ok l) := by
  rcases pdfRes with pc | ⟨n, m⟩ <;> rcases excelRes with ec | ⟨n2, m2⟩ <;>
    simp_all [Gateway.listFilesFromS3, BackendListResult.isS3Exn]

/-- Sanitizing a character twice is the same as sanitizing it once. -/
theorem sanChar_idem (c : Char) : sanChar (sanChar c) = sanChar c := by
  by_cases h : isAllowedChar c = true
  · simp [sanChar, h]
  · simp [sanChar, h]

/-- A sanitized character is always in the allowed set. -/
theorem isAllowedChar_sanChar (c : Char) : isAllowedChar (sanChar c) = true := by
  by_cases h : isAllowedChar c = true
  · simp [sanChar, h]
  · simp [sanChar, h]; decide

/-- C5, counterexample: uploading the file named with two CJK
characters, a space and parentheses at timestamp 1700000000000 does NOT
produce the key claimed in the spec, which has only three underscores
before the word final: the code replaces each of the four non-allowed
leading characters 1:1, producing four underscores. -/
theorem C5_key_example_cex :
    (Gateway.uploadPdfToS3 ⟨"报告 (final)#1.pdf", 1024, "application/pdf", .parsed⟩
      "https://example.com/a" 1700000000000 "2023-11-14T22:13:20.000Z" .success).1 ≠
    .ok "pdf_files/1700000000000-___final__1.pdf" := by decide

/-- C5, amended: that upload produces exactly the key
pdf_files/1700000000000-____final__1.pdf, each character outside
[A-Za-z0-9._-] being replaced 1:1 with an underscore (four leading
underscores: two CJK characters, one space, one opening
parenthesis). -/
theorem C5_key_example_amended :
    (Gateway.uploadPdfToS3 ⟨"报告 (final)#1.pdf", 1024, "application/pdf", .parsed⟩
      "https://example.com/a" 1700000000000 "2023-11-14T22:13:20.000Z" .success).1 =
    .ok "pdf_files/1700000000000-____final__1.pdf" ∧
    sanitizeFileName "报告 (final)#1.pdf" = "____final__1.pdf" := by decide

/-- C6: a successful upload derives the storage key
prefix/timestamp-sanitizedName with prefix pdf_files for the pdf
category and excel_sheets for the excel category; the sanitized segment
contains only characters from [A-Za-z0-9._-], and sanitizing is
idempotent. -/
theorem C6_key_shape (pdfFile excelFile : File) (link bucket nowIso : String)
    (ts : Nat) (s : String)
    (hp1 : ¬ pdfFile.size > 100 * 1048576) (hp2 : pdfFile.parse = .parsed)
    (he1 : ¬ excelFile.size > 100 * 1048576)
    (he2 : Gateway.validExcelTypes.contains excelFile.mimeType = true) :
    (Gateway.uploadPdfToS3 pdfFile link ts nowIso .success).1 =
      .ok ("pdf_files/" ++ toString ts ++ "-" ++ sanitizeFileName pdfFile.name) ∧
    (Gateway.uploadExcelToS3 bucket excelFile ts .success).1 =
      .ok ("excel_sheets/" ++ toString ts ++ "-" ++ sanitizeFileName excelFile.name) ∧
    (∀ c ∈ (sanitizeFileName s).data, isAllowedChar c = true) ∧
    sanitizeFileName (sanitizeFileName s) = sanitizeFileName s := by
  have hok : Gateway.addSourceLinkToPdf pdfFile link nowIso =
      .ok { title := some ("Document: " ++ pdfFile.name)
            author := some "Document Management System"
            subject := some link
            producer := some "DMS Upload Tool"
            creator := some "DMS Upload Tool"
            keywords := ["source:" ++ link, "upload:" ++ nowIso] } := by
    rw [Gateway.addSourceLinkToPdf, hp2]
  refine ⟨?_, ?_, ?_, ?_⟩
  · simp [Gateway.uploadPdfToS3, validateFileSize_ok pdfFile hp1, hok]
  · have hmem : excelFile.mimeType ∈ Gateway.validExcelTypes := by
      simpa using he2
    simp [Gateway.uploadExcelToS3, validateFileSize_ok excelFile he1, hmem]
  · intro c hc
    simp only [sanitizeFileName, List.mem_map] at hc
    rcases hc with ⟨d, _, hd⟩
    rw [← hd]
    exact isAllowedChar_sanChar d
  · show sanitizeFileName ⟨(s.data.map sanChar)⟩ = _
    simp only [sanitizeFileName, List.map_map]
    congr 1
    exact List.map_congr_left fun c _ => sanChar_idem c

/-- C7: for every parseable PDF and every sourceLink,
addSourceLinkToPdf returns a document whose subject equals sourceLink
verbatim, whose keyword list contains both the source-prefixed link and
the upload-prefixed ISO timestamp, and whose title is derived from the
filename. -/
theorem C7_embed_fields (pdfFile : File) (link nowIso : String)
    (h : pdfFile.parse = .parsed) :
    ∃ doc, Gateway.addSourceLinkToPdf pdfFile link nowIso = .ok doc ∧
      doc.subject = some link ∧
      ("source:" ++ link) ∈ doc.keywords ∧
      ("upload:" ++ nowIso) ∈ doc.keywords ∧
      doc.title = some ("Document: " ++ pdfFile.name) := by
  refine ⟨_, by rw [Gateway.addSourceLinkToPdf, h], rfl, ?_, ?_, rfl⟩ <;> simp

/-- C8: at the failing input, getPresignedUrl with the presigner
available hands the presigner a PutObjectCommand, an upload command
rather than a retrieval one, contradicting the documented purpose of
returning a retrieval URL; the fallback branch does return the stable
public-style URL of the claimed shape. -/
theorem C8_presign_put_command :
    Gateway.getPresignedUrl "major-project-margdarshak" "pdf_files/123-a.pdf" true =
      .signed .putObject "major-project-margdarshak" "pdf_files/123-a.pdf" 3600 ∧
    HttpCommand.putObject ≠ HttpCommand.getObject ∧
    Gateway.getPresignedUrl "major-project-margdarshak" "pdf_files/123-a.pdf" false =
      .publicUrl "https://major-project-margdarshak.s3.amazonaws.com/pdf_files/123-a.pdf" := by
  decide

/-- A message starting with the letter S classifies as a store error. -/
theorem classifyMessage_of_head_S (m : String) (h : m.data.head? = some 'S') :
    classifyMessage m = .store := by
  simp [classifyMessage, h]

/-- Backend failure messages keep the leading S through the appends. -/
theorem storeMsg_head (op n m : String) (hop : op.data.head? = some 'S') :
    (op ++ n ++ " - " ++ m).data.head? = some 'S' :=
  head_append _ _ _ (head_append _ _ _ (head_append _ _ _ hop))

/-- The wrapped metadata failure message classifies as metadataWrite. -/
theorem classifyMessage_metaWrapped (em : String) :
    classifyMessage ("Failed to upload PDF: " ++ ("Failed to modify PDF metadata: " ++ em)) =
      .metadataWrite := by
  have hdata : ("Failed to upload PDF: " ++ ("Failed to modify PDF metadata: " ++ em)).data =
      ("Failed to upload PDF: Failed to modify PDF metadata: ").data ++ em.data := by
    rw [data_append, data_append]
    rfl
  have hhead : ("Failed to upload PDF: " ++ ("Failed to modify PDF metadata: " ++ em)).data.head? =
      some 'F' := by
    rw [hdata]; rfl
  rw [classifyMessage, if_neg (by rw [hhead]; decide), if_pos]
  rw [hdata]
  exact charsStartWith_append_self _ _

/-- C9, counterexample: two failures of different taxonomy members, an
InvalidKey guard trip and a backend StoreError, render as thrown Error
values whose only structural field apart from the message, the name, is
identical: nothing but the human-readable message distinguishes
them. -/
theorem C9_taxonomy_cex :
    (Gateway.deleteFileFromS3 "b" "" .success).1 =
      .error (.invalidKeyError "Failed to delete file: File key is required") ∧
    (Gateway.deleteFileFromS3 "b" "pdf_files/a.pdf" (.s3Exn "NoSuchKey" "gone")).1 =
      .error (.storeError "NoSuchKey" "S3 delete operation failed: NoSuchKey - gone") ∧
    classOf (.invalidKeyError "Failed to delete file: File key is required") ≠
      classOf (.storeError "NoSuchKey" "S3 delete operation failed: NoSuchKey - gone") ∧
    (render (.invalidKeyError "Failed to delete file: File key is required")).name =
      (render (.storeError "NoSuchKey" "S3 delete operation failed: NoSuchKey - gone")).name := by
  decide

/-- C9, amended: every failure of the four gateway operations surfaces
as a plain Error value named Error, and the taxonomy member remains
distinguishable by the caller, but only through the fixed per-member
message prefixes: classifying the rendered message recovers exactly the
taxonomy member of the failure. -/
theorem C9_amended_classify :
    (∀ (file : File) (link : String) (ts : Nat) (nowIso : String) (put : BackendPutResult)
        (f : StoreFailure),
      (Gateway.uploadPdfToS3 file link ts nowIso put).1 = .error f →
      (render f).name = "Error" ∧ classifyMessage (render f).message = classOf f) ∧
    (∀ (bucket : String) (file : File) (ts : Nat) (put : BackendPutResult) (f : StoreFailure),
      (Gateway.uploadExcelToS3 bucket file ts put).1 = .error f →
      (render f).name = "Error" ∧ classifyMessage (render f).message = classOf f) ∧
    (∀ (bucket : String) (now : Nat) (pr er : BackendListResult) (f : StoreFailure),
      (Gateway.listFilesFromS3 bucket now pr er).1 = .error f →
      (render f).name = "Error" ∧ classifyMessage (render f).message = classOf f) ∧
    (∀ (bucket fileKey : String) (backend : BackendDeleteResult) (f : StoreFailure),
      (Gateway.deleteFileFromS3 bucket fileKey backend).1 = .error f →
      (render f).name = "Error" ∧ classifyMessage (render f).message = classOf f) := by
  refine ⟨?_, ?_, ?_, ?_⟩
  · intro file link ts nowIso put f h
    by_cases hs : file.size > 100 * 1048576
    · have hv : Gateway.validateFileSize file =
          .error (.validationError "File too large. Maximum size is 100MB.") := by
        rw [Gateway.validateFileSize, if_pos]
        simp [Gateway.MAX_FILE_SIZE_MB]; omega
      simp [Gateway.uploadPdfToS3, hv, Gateway.wrapPdfFailure, StoreFailure.mapMessage] at h
      subst h
      exact ⟨rfl, by decide⟩
    · have hv := validateFileSize_ok file hs
      cases hpf : file.parse with
      | parseError em =>
        have hed : Gateway.addSourceLinkToPdf file link nowIso =
            .error (.metadataWriteError ("Failed to modify PDF metadata: " ++ em)) := by
          rw [Gateway.addSourceLinkToPdf, hpf]
        simp [Gateway.uploadPdfToS3, hv, hed, Gateway.wrapPdfFailure,
          StoreFailure.mapMessage] at h
        subst h
        refine ⟨rfl, ?_⟩
        show classifyMessage
          ("Failed to upload PDF: " ++ ("Failed to modify PDF metadata: " ++ em)) =
          ErrorClass.metadataWrite
        exact classifyMessage_metaWrapped em
      | parsed =>
        have hok : Gateway.addSourceLinkToPdf file link nowIso =
            .ok { title := some ("Document: " ++ file.name)
                  author := some "Document Management System"
                  subject := some link
                  producer := some "DMS Upload Tool"
                  creator := some "DMS Upload Tool"
                  keywords := ["source:" ++ link, "upload:" ++ nowIso] } := by
          rw [Gateway.addSourceLinkToPdf, hpf]
        cases put with
        | success => simp [Gateway.uploadPdfToS3, hv, hok] at h
        | s3Exn n m =>
          simp [Gateway.uploadPdfToS3, hv, hok] at h
          subst h
          refine ⟨rfl, ?_⟩
          show classifyMessage ("S3 upload failed: " ++ n ++ " - " ++ m) = ErrorClass.store
          exact classifyMessage_of_head_S _ (storeMsg_head _ n m rfl)
  · intro bucket file ts put f h
    by_cases hs : file.size > 100 * 1048576
    · have hv : Gateway.validateFileSize file =
          .error (.validationError "File too large. Maximum size is 100MB.") := by
        rw [Gateway.validateFileSize, if_pos]
        simp [Gateway.MAX_FILE_SIZE_MB]; omega
      simp [Gateway.uploadExcelToS3, hv, Gateway.wrapExcelFailure, StoreFailure.mapMessage] at h
      subst h
      exact ⟨rfl, by decide⟩
    · have hv := validateFileSize_ok file hs
      by_cases hm : file.mimeType ∈ Gateway.validExcelTypes
      · cases put with
        | success => simp [Gateway.uploadExcelToS3, hv, hm] at h
        | s3Exn n m =>
          simp [Gateway.uploadExcelToS3, hv, hm] at h
          subst h
          refine ⟨rfl, ?_⟩
          show classifyMessage ("S3 upload failed: " ++ n ++ " - " ++ m) = ErrorClass.store
          exact classifyMessage_of_head_S _ (storeMsg_head _ n m rfl)
      · simp [Gateway.uploadExcelToS3, hv, hm, Gateway.wrapExcelFailure,
          StoreFailure.mapMessage] at h
        subst h
        exact ⟨rfl, by decide⟩
  · intro bucket now pr er f h
    rcases pr with pc | ⟨n, m⟩
    · rcases er with ec | ⟨n, m⟩
      · simp [Gateway.listFilesFromS3] at h
      · simp [Gateway.listFilesFromS3] at h
        subst h
        refine ⟨rfl, ?_⟩
        show classifyMessage ("S3 list operation failed: " ++ n ++ " - " ++ m) = ErrorClass.store
        exact classifyMessage_of_head_S _ (storeMsg_head _ n m rfl)
    · simp [Gateway.listFilesFromS3] at h
      subst h
      refine ⟨rfl, ?_⟩
      show classifyMessage ("S3 list operation failed: " ++ n ++ " - " ++ m) = ErrorClass.store
      exact classifyMessage_of_head_S _ (storeMsg_head _ n m rfl)
  · intro bucket fileKey backend f h
    by_cases hk : fileKey = ""
    · simp [Gateway.deleteFileFromS3, hk] at h
      subst h
      exact ⟨rfl, by decide⟩
    · by_cases hg : (!(strStartsWith fileKey "pdf_files/") &&
        !(strStartsWith fileKey "excel_sheets/")) = true
      · simp only [Gateway.deleteFileFromS3] at h
        rw [if_neg hk, if_pos hg] at h
        simp at h
        subst h
        exact ⟨rfl, by decide⟩
      · simp only [Gateway.deleteFileFromS3] at h
        rw [if_neg hk, if_neg hg] at h
        cases backend with
        | success => simp at h
        | s3Exn n m =>
          simp at h
          subst h
          refine ⟨rfl, ?_⟩
          show classifyMessage ("S3 delete operation failed: " ++ n ++ " - " ++ m) =
            ErrorClass.store
          exact classifyMessage_of_head_S _ (storeMsg_head _ n m rfl)

/-- C10: the deleteFileFromS3 variant of src/src/lib/s3.ts performs no
key validation: for every key, including the empty string and keys
outside the recognized folders, it issues the backend delete call, and
it fails only when the backend fails; the guarded gateway variant by
contrast issues no backend call on those keys. -/
theorem C10_unguarded_delete (bucket fileKey : String) (backend : BackendDeleteResult) :
    (LibS3.deleteFileFromS3 bucket fileKey backend).2 =
      [GatewayEvent.s3Delete bucket fileKey] ∧
    ((LibS3.deleteFileFromS3 bucket fileKey backend).1 = .ok () ↔ backend = .success) ∧
    (Gateway.deleteFileFromS3 bucket "" backend).2 = [] ∧
    (Gateway.deleteFileFromS3 bucket "evil/../../secret" backend).2 = [] := by
  have h1 : strStartsWith "evil/../../secret" "pdf_files/" = false := by decide
  have h2 : strStartsWith "evil/../../secret" "excel_sheets/" = false := by decide
  cases backend <;>
    simp [LibS3.deleteFileFromS3, Gateway.deleteFileFromS3, h1, h2]

/-- Witness for C1 at the three keys named by the spec examples. -/
theorem C1_remove_guard_witness :
    ((∃ m, (Gateway.deleteFileFromS3 "b" "" BackendDeleteResult.success).1 =
        .error (.invalidKeyError m)) ∧
      (Gateway.deleteFileFromS3 "b" "" BackendDeleteResult.success).2 = []) ∧
    ((∃ m, (Gateway.deleteFileFromS3 "b" "evil/../../secret" BackendDeleteResult.success).1 =
        .error (.invalidKeyError m)) ∧
      (Gateway.deleteFileFromS3 "b" "evil/../../secret" BackendDeleteResult.success).2 = []) ∧
    ((Gateway.deleteFileFromS3 "b" "pdf_files/123-a.pdf" BackendDeleteResult.success).2 =
        [GatewayEvent.s3Delete "b" "pdf_files/123-a.pdf"] ∧
      ((Gateway.deleteFileFromS3 "b" "pdf_files/123-a.pdf" BackendDeleteResult.success).1 =
        .ok () ↔ BackendDeleteResult.success = .success) ∧
      (∀ n m, BackendDeleteResult.success = BackendDeleteResult.s3Exn n m →
        (Gateway.deleteFileFromS3 "b" "pdf_files/123-a.pdf" BackendDeleteResult.success).1 =
          .error (.storeError n ("S3 delete operation failed: " ++ n ++ " - " ++ m)))) :=
  ⟨(C1_remove_guard "b" "" .success).1 (Or.inl rfl),
   (C1_remove_guard "b" "evil/../../secret" .success).1 (Or.inr ⟨by decide, by decide⟩),
   (C1_remove_guard "b" "pdf_files/123-a.pdf" .success).2 (by decide) (Or.inl (by decide))⟩

/-- Witness for C2 at a file one byte over the limit. -/
theorem C2_size_guard_witness :
    (Gateway.uploadPdfToS3 ⟨"a.pdf", 104857601, "application/pdf", .parsed⟩
        "https://example.com/a" 0 "t" .success).1 =
      .error (.validationError "Failed to upload PDF: File too large. Maximum size is 100MB.") ∧
    (Gateway.uploadPdfToS3 ⟨"a.pdf", 104857601, "application/pdf", .parsed⟩
        "https://example.com/a" 0 "t" .success).2 = [] ∧
    (Gateway.uploadExcelToS3 "b" ⟨"a.xlsx", 104857601, "application/vnd.ms-excel", .parsed⟩
        0 .success).1 =
      .error (.validationError "Failed to upload Excel: File too large. Maximum size is 100MB.") ∧
    (Gateway.uploadExcelToS3 "b" ⟨"a.xlsx", 104857601, "application/vnd.ms-excel", .parsed⟩
        0 .success).2 = [] :=
  C2_size_guard ⟨"a.pdf", 104857601, "application/pdf", .parsed⟩
    ⟨"a.xlsx", 104857601, "application/vnd.ms-excel", .parsed⟩
    "https://example.com/a" "b" "t" 0 .success (by decide) (by decide)

/-- Witness for C3 at a file whose bytes do not parse. -/
theorem C3_embed_before_put_witness :
    (Gateway.uploadPdfToS3 ⟨"a.pdf", 10, "application/pdf", .parseError "bad bytes"⟩
        "https://example.com/a" 0 "t" .success).1 =
      .error (.metadataWriteError
        ("Failed to upload PDF: " ++ ("Failed to modify PDF metadata: " ++ "bad bytes"))) ∧
    (Gateway.uploadPdfToS3 ⟨"a.pdf", 10, "application/pdf", .parseError "bad bytes"⟩
        "https://example.com/a" 0 "t" .success).2 = [GatewayEvent.embedCall] ∧
    (∀ b k, GatewayEvent.s3Put b k ∉
      (Gateway.uploadPdfToS3 ⟨"a.pdf", 10, "application/pdf", .parseError "bad bytes"⟩
        "https://example.com/a" 0 "t" .success).2) ∧
    (∀ (f : File) (l : String) (t : Nat) (i : String) (p : BackendPutResult) (b k : String),
      GatewayEvent.s3Put b k ∈ (Gateway.uploadPdfToS3 f l t i p).2 →
      (Gateway.uploadPdfToS3 f l t i p).2 = [GatewayEvent.embedCall, GatewayEvent.s3Put b k]) :=
  C3_embed_before_put ⟨"a.pdf", 10, "application/pdf", .parseError "bad bytes"⟩
    "https://example.com/a" "t" 0 .success "bad bytes" (by decide) rfl

/-- Witness for C4 with the pdf listing failing. -/
theorem C4_aggregate_failure_witness :
    (∃ c m, (Gateway.listFilesFromS3 "b" 0 (.s3Exn "AccessDenied" "no") (.ok none)).1 =
      .error (.storeError c m)) ∧
    (∀ l, (Gateway.listFilesFromS3 "b" 0 (.s3Exn "AccessDenied" "no") (.ok none)).1 ≠ .ok l) :=
  C4_aggregate_failure "b" 0 (.s3Exn "AccessDenied" "no") (.ok none) (Or.inl rfl)

/-- Witness for C6 at names containing a space. -/
theorem C6_key_shape_witness :
    (Gateway.uploadPdfToS3 ⟨"a b.pdf", 10, "application/pdf", .parsed⟩
        "https://example.com/a" 123 "t" .success).1 =
      .ok ("pdf_files/" ++ toString 123 ++ "-" ++ sanitizeFileName "a b.pdf") ∧
    (Gateway.uploadExcelToS3 "b" ⟨"c d.xlsx", 10, "application/vnd.ms-excel", .parsed⟩
        123 .success).1 =
      .ok ("excel_sheets/" ++ toString 123 ++ "-" ++ sanitizeFileName "c d.xlsx") ∧
    (∀ c ∈ (sanitizeFileName "a b.pdf").data, isAllowedChar c = true) ∧
    sanitizeFileName (sanitizeFileName "a b.pdf") = sanitizeFileName "a b.pdf" :=
  C6_key_shape ⟨"a b.pdf", 10, "application/pdf", .parsed⟩
    ⟨"c d.xlsx", 10, "application/vnd.ms-excel", .parsed⟩
    "https://example.com/a" "b" "t" 123 "a b.pdf" (by decide) rfl (by decide) (by decide)

/-- Witness for C7 at the sourceLink of the spec example. -/
theorem C7_embed_fields_witness :
    ∃ doc, Gateway.addSourceLinkToPdf ⟨"a.pdf", 10, "application/pdf", .parsed⟩
        "https://example.com/a" "2024-01-01T00:00:00.000Z" = .ok doc ∧
      doc.subject = some "https://example.com/a" ∧
      ("source:" ++ "https://example.com/a") ∈ doc.keywords ∧
      ("upload:" ++ "2024-01-01T00:00:00.000Z") ∈ doc.keywords ∧
      doc.title = some ("Document: " ++ "a.pdf") :=
  C7_embed_fields ⟨"a.pdf", 10, "application/pdf", .parsed⟩
    "https://example.com/a" "2024-01-01T00:00:00.000Z" rfl

/-- Witness for C9 at a guard failure and a backend failure. -/
theorem C9_amended_classify_witness :
    ((render (.invalidKeyError "Failed to delete file: File key is required")).name = "Error" ∧
      classifyMessage
        (render (.invalidKeyError "Failed to delete file: File key is required")).message =
        classOf (.invalidKeyError "Failed to delete file: File key is required")) ∧
    ((render (.storeError "NoSuchKey" "S3 delete operation failed: NoSuchKey - gone")).name =
        "Error" ∧
      classifyMessage
        (render (.storeError "NoSuchKey" "S3 delete operation failed: NoSuchKey - gone")).message =
        classOf (.storeError "NoSuchKey" "S3 delete operation failed: NoSuchKey - gone")) :=
  ⟨C9_amended_classify.2.2.2 "b" "" .success
      (.invalidKeyError "Failed to delete file: File key is required") (by decide),
   C9_amended_classify.2.2.2 "b" "pdf_files/a.pdf" (.s3Exn "NoSuchKey" "gone")
      (.storeError "NoSuchKey" "S3 delete operation failed: NoSuchKey - gone") (by decide)⟩

end DMS
